import Mathlib

/-!
Verification development for the Lovelace card host (`hui-card`) and the
tile card (`hui-tile-card`) of a home-automation dashboard frontend.

The TypeScript classes are shallowly embedded: reactive-element lifecycle
handlers become explicit state-transition functions, optional values become
`Option`, thrown exceptions become `Except`, and out-of-scope collaborator
utilities (the condition evaluator, the color conversion library, the
card-size helper, the element factory) are taken as function parameters so
that every theorem quantifies over their behaviour.
-/

namespace HuiSpec

/-- A declarative visibility condition: a tagged variant identified by its
`condition` string, with an optional `media_query` field used by the
screen/media-query variant. -/
structure Condition where
  condition : String
  media_query : Option String
deriving DecidableEq

/-- Layout options reported by a card or configured on it
(`LovelaceLayoutOptions`): each key is optional. -/
structure LayoutOptions where
  grid_columns : Option Nat
  grid_rows : Option Nat
  grid_max_columns : Option Nat
  grid_min_columns : Option Nat
  grid_min_rows : Option Nat
  grid_max_rows : Option Nat
deriving DecidableEq

/-- A Lovelace card configuration (`LovelaceCardConfig`): the dispatch
`type`, optional `visibility` conditions, optional `layout_options`, an
optional `error` field (used by the error-display card configuration), and
an opaque `payload` standing for all remaining type-specific fields. -/
structure CardConfig where
  type : String
  visibility : Option (List Condition)
  layout_options : Option LayoutOptions
  error : Option String
  payload : String
deriving DecidableEq

/-- Attributes of an entity state object (the fields this code reads). -/
structure HassEntityAttributes where
  friendly_name : Option String
  rgb_color : Option (ℚ × ℚ × ℚ)
  entity_picture : Option String
deriving DecidableEq

/-- An entity state object (`HassEntity`): id, state string, attributes. -/
structure HassEntity where
  entity_id : String
  state : String
  attributes : HassEntityAttributes
deriving DecidableEq

/-- The live external-state snapshot (`HomeAssistant`), reduced to its
entity-state map, modelled as an association list. -/
structure Hass where
  states : List (String × HassEntity)
deriving DecidableEq

/-- Lookup of `hass.states[entityId]`. -/
def lookupState (h : Hass) (entityId : String) : Option HassEntity :=
  (h.states.find? (fun p => p.1 == entityId)).map Prod.snd

/-- An action descriptor (`ActionConfig`), reduced to its `action` tag. -/
structure ActionConfig where
  action : String
deriving DecidableEq

/-- The tile card configuration (`TileCardConfig`), with the fields this
code reads; absent keys are `none`. -/
structure TileConfig where
  type : String
  entity : Option String
  name : Option String
  icon : Option String
  color : Option String
  show_entity_picture : Option Bool
  vertical : Option Bool
  hide_state : Option Bool
  features : Option (List String)
  tap_action : Option ActionConfig
  icon_tap_action : Option ActionConfig
  hold_action : Option ActionConfig
  double_tap_action : Option ActionConfig
deriving DecidableEq

/-- Modelled from the spec: `computeDomain`, the out-of-scope entity
utility; per the glossary, the domain is the entity-type category inferred
from the entity identifier's prefix (the part before the first dot). -/
def computeDomain (entityId : String) : String :=
  String.mk (entityId.toList.takeWhile (fun c => c ≠ '.'))

/-- Modelled from the spec: `stateActive`, the out-of-scope state-activity
utility used when computing display colors; an entity is treated as active
when its state is none of "off", "unavailable" and "unknown". -/
def stateActive (entity : HassEntity) : Bool :=
  entity.state != "off" && entity.state != "unavailable" &&
    entity.state != "unknown"

/-- Modelled from the spec: `hasAction`, the action-dispatch collaborator's
test of whether an action descriptor warrants a clickable affordance; a
present descriptor is actionable unless its action tag is "none". -/
def hasAction (config : Option ActionConfig) : Bool :=
  match config with
  | some a => a.action != "none"
  | none => false

namespace HuiCard

/-- The host's view of its loaded child element for the configuration-change
step: a generation counter that increments whenever a fresh element is
constructed by the factory, the configuration the element was last given
(`_elementConfig`), and the log of in-place `setConfig` deliveries. -/
structure LoadedChild where
  generation : Nat
  elementConfig : CardConfig
  setConfigCalls : List CardConfig
deriving DecidableEq

/-- The `changedProps.has("config")` branch of `HuiCard.update`: with a
loaded child, a changed configuration that is non-null and distinct from
`_elementConfig` either rebuilds the element (`_loadElement`, modelled as a
generation increment) when the type changed or the host is in preview mode,
or updates it in place (`_updateElement`, modelled as a `setConfig` log
entry). -/
def updateConfigStep (config : Option CardConfig) (preview : Bool)
    (child : LoadedChild) : LoadedChild :=
  match config with
  | none => child
  | some cfg =>
    if cfg = child.elementConfig then child
    else
      let typeChanged := cfg.type != child.elementConfig.type || preview
      if typeChanged || preview then
        { generation := child.generation + 1
          elementConfig := cfg
          setConfigCalls := child.setConfigCalls }
      else
        { generation := child.generation
          elementConfig := cfg
          setConfigCalls := child.setConfigCalls ++ [cfg] }

/-- Outcome of the `changedProps.has("hass")` branch of `HuiCard.update`. -/
inductive HassStepResult
  | statePushed
  | replacedWithError (config : CardConfig)
  | skipped
deriving DecidableEq

/-- Modelled from the spec: `createErrorCardConfig`, the element-factory
helper that builds the error-display card configuration carrying the
failure message. -/
def createErrorCardConfig (message : String) : CardConfig :=
  { type := "error"
    visibility := none
    layout_options := none
    error := some message
    payload := "" }

/-- The `changedProps.has("hass")` branch of `HuiCard.update`: when a state
snapshot is present it is pushed into the child element (whose `hass`
setter may throw, modelled by `Except`); a thrown message is caught and the
child is replaced by an element built from the error-display
configuration. -/
def hassChangeStep (setChildHass : Hass → Except String Unit)
    (hass : Option Hass) : HassStepResult :=
  match hass with
  | none => HassStepResult.skipped
  | some h =>
    match setChildHass h with
    | Except.ok _ => HassStepResult.statePushed
    | Except.error msg =>
        HassStepResult.replacedWithError (createErrorCardConfig msg)

/-- `HuiCard._updateVisibility`: returns `none` when the guard
(`!this._element || !this.hass`) exits early, otherwise `some` of the
visibility value handed to `_setElementVisibility`. The condition
evaluator `checkConditionsMet` is a collaborator parameter `check`. -/
def updateVisibility (check : List Condition → Hass → Bool)
    (hasElement : Bool) (hass : Option Hass) (elementHidden : Bool)
    (preview : Bool) (visibility : Option (List Condition))
    (forceVisible : Option Bool) : Option Bool :=
  match hass, hasElement with
  | some h, true =>
    if elementHidden then some false
    else
      some (forceVisible.getD false || preview || visibility.isNone ||
        check (visibility.getD []) h)
  | _, _ => none

/-- The host-side state touched by `HuiCard._setElementVisibility`: the
host's `hidden` attribute and whether the child element is attached to the
host's render tree (`parentElement`). -/
structure VisState where
  hostHidden : Bool
  childAttached : Bool
deriving DecidableEq

/-- `HuiCard._setElementVisibility`: fires `card-visibility-changed` (the
returned flag) only when the host's hidden attribute disagrees with the new
value, then detaches or reattaches the child element. -/
def setElementVisibility (hasElement : Bool) (visible : Bool)
    (s : VisState) : VisState × Bool :=
  if hasElement then
    let fired := s.hostHidden != (!visible)
    let s1 := if fired then { s with hostHidden := !visible } else s
    let s2 :=
      if !visible && s1.childAttached then { s1 with childAttached := false }
      else if visible && !s1.childAttached then
        { s1 with childAttached := true }
      else s1
    (s2, fired)
  else (s, false)

/-- Folds a sequence of visibility evaluations through
`setElementVisibility`, returning the final state and the number of
`card-visibility-changed` events fired. -/
def runVisibility (hasElement : Bool) (s : VisState) :
    List Bool → VisState × Nat
  | [] => (s, 0)
  | v :: vs =>
    let r := setElementVisibility hasElement v s
    let rest := runVisibility hasElement r.1 vs
    (rest.1, (if r.2 then 1 else 0) + rest.2)

/-- Number of actual transitions in a sequence of visibility values,
measured against the current value. -/
def countChanges (current : Bool) : List Bool → Nat
  | [] => 0
  | v :: vs => (if v != current then 1 else 0) + countChanges v vs

/-- The media-query listener bookkeeping of the host: the identifiers of
the active subscriptions (`_listeners`) and the log of unsubscribe calls
already made. -/
structure MediaListenerState where
  listeners : List Nat
  unsubscribeLog : List Nat
deriving DecidableEq

/-- `HuiCard._clearMediaQueries`: calls every stored unsubscribe function
and empties the listener list. -/
def clearMediaQueries (s : MediaListenerState) : MediaListenerState :=
  { listeners := []
    unsubscribeLog := s.unsubscribeLog ++ s.listeners }

/-- `HuiCard.disconnectedCallback`: clears all media-query listeners. -/
def disconnectedCallback (s : MediaListenerState) : MediaListenerState :=
  clearMediaQueries s

/-- `HuiCard._listenMediaQueries`: clears the existing listeners, then,
when visibility conditions are configured, attaches fresh listeners via the
collaborator `attachConditionMediaQueriesListeners` (parameter `attach`). -/
def listenMediaQueries (attach : List Condition → List Nat)
    (visibility : Option (List Condition))
    (s : MediaListenerState) : MediaListenerState :=
  let s1 := clearMediaQueries s
  match visibility with
  | none => s1
  | some conditions => { s1 with listeners := attach conditions }

/-- The `hasOnlyMediaQuery` test of `HuiCard._listenMediaQueries`: the
configured conditions are a sole screen condition with a media query. -/
def hasOnlyMediaQuery (conditions : List Condition) : Bool :=
  match conditions with
  | [c] => c.condition == "screen" && c.media_query.isSome
  | _ => false

/-- The layout options object with no keys present (`{}`). -/
def emptyLayoutOptions : LayoutOptions :=
  { grid_columns := none
    grid_rows := none
    grid_max_columns := none
    grid_min_columns := none
    grid_min_rows := none
    grid_max_rows := none }

/-- The object spread `\x7b...cardOptions, ...configOptions\x7d`: every key
present in `configOptions` overrides the same key of `cardOptions`. -/
def mergeLayoutOptions (cardOptions configOptions : LayoutOptions) :
    LayoutOptions :=
  { grid_columns := configOptions.grid_columns <|> cardOptions.grid_columns
    grid_rows := configOptions.grid_rows <|> cardOptions.grid_rows
    grid_max_columns :=
      configOptions.grid_max_columns <|> cardOptions.grid_max_columns
    grid_min_columns :=
      configOptions.grid_min_columns <|> cardOptions.grid_min_columns
    grid_min_rows := configOptions.grid_min_rows <|> cardOptions.grid_min_rows
    grid_max_rows :=
      configOptions.grid_max_rows <|> cardOptions.grid_max_rows }

/-- The host's view of the child element for layout and size reporting:
the result of the optional `getLayoutOptions` method (`none` when the
method is absent). -/
structure ChildElement where
  reportedLayoutOptions : Option LayoutOptions
deriving DecidableEq

/-- `HuiCard.getLayoutOptions`: the configuration's `layout_options`
(defaulting to `\x7b\x7d`) merged over the child element's reported
options when an element is loaded. -/
def getLayoutOptions (config : Option CardConfig)
    (element : Option ChildElement) : LayoutOptions :=
  let configOptions := (config.bind CardConfig.layout_options).getD
    emptyLayoutOptions
  match element with
  | some el =>
    let cardOptions := el.reportedLayoutOptions.getD emptyLayoutOptions
    mergeLayoutOptions cardOptions configOptions
  | none => configOptions

/-- `HuiCard.getCardSize`: the collaborator `computeCardSize` applied to
the loaded element, and `1` when no element is loaded. -/
def getCardSize (computeCardSize : ChildElement → Nat)
    (element : Option ChildElement) : Nat :=
  match element with
  | some el => computeCardSize el
  | none => 1

end HuiCard

/-- An RGB triple, components as exact rationals. -/
abbrev Rgb := ℚ × ℚ × ℚ

/-- An HSV triple, components as exact rationals. -/
structure Hsv where
  hue : ℚ
  sat : ℚ
  val : ℚ
deriving DecidableEq

/-- The generic help icon path constant (imported from the icon library),
modelled by its name. -/
def mdiHelp : String := "mdiHelp"

/-- The warning badge icon path constant (imported from the icon library),
modelled by its name. -/
def mdiExclamationThick : String := "mdiExclamationThick"

namespace HuiTileCard

/-- `getEntityDefaultTileIconAction`: toggle when the entity's domain is in
the toggleable-domain set (parameter `domainsToggle`, the out-of-scope
`DOMAINS_TOGGLE` constant) or is one of button, input_button and scene;
otherwise more-info. -/
def getEntityDefaultTileIconAction (domainsToggle : List String)
    (entityId : String) : String :=
  let domain := computeDomain entityId
  let supportsIconAction := domainsToggle.contains domain ||
    ["button", "input_button", "scene"].contains domain
  if supportsIconAction then "toggle" else "more-info"

/-- `HuiTileCard.setConfig`: throws when the configuration's entity id is
absent or empty (falsy), otherwise stores the user configuration spread
over the default `tap_action` and the domain-derived default
`icon_tap_action`. -/
def setConfig (domainsToggle : List String) (config : TileConfig) :
    Except String TileConfig :=
  if config.entity.getD "" = "" then Except.error "Specify an entity"
  else
    Except.ok
      { config with
        tap_action := some (config.tap_action.getD { action := "more-info" })
        icon_tap_action := some (config.icon_tap_action.getD
          { action := getEntityDefaultTileIconAction domainsToggle
              (config.entity.getD "") }) }

/-- `HuiTileCard.getCardSize`: one base unit, plus one when the vertical
flag is set, plus one per configured feature row. -/
def getCardSize (config : Option TileConfig) : Nat :=
  1 + (if (config.bind TileConfig.vertical).getD false then 1 else 0) +
    ((config.bind TileConfig.features).getD []).length

/-- `HuiTileCard._computeStateColor`: a configured override color wins when
the entity is active; person/device_tracker suppress the color (rendered on
the badge); a light with an rgb_color attribute gets a contrast-adjusted
hex color; otherwise the state-color utility decides. The color utilities
`computeCssColor`, `stateColorCss`, `rgb2hsv`, `hsv2rgb` and `rgb2hex` are
out-of-scope collaborators taken as parameters. -/
def computeStateColor (computeCssColor : String → String)
    (stateColorCss : HassEntity → Option String)
    (rgb2hsv : Rgb → Hsv) (hsv2rgb : Hsv → Rgb) (rgb2hex : Rgb → String)
    (entity : HassEntity) (color : Option String) : Option String :=
  match color with
  | some c => if stateActive entity then some (computeCssColor c) else none
  | none =>
    if computeDomain entity.entity_id = "person" ∨
        computeDomain entity.entity_id = "device_tracker" then
      none
    else if computeDomain entity.entity_id = "light" ∧
        entity.attributes.rgb_color.isSome then
      let hsvColor := rgb2hsv (entity.attributes.rgb_color.getD (0, 0, 0))
      let hsvColor :=
        if hsvColor.sat < 2/5 then
          if hsvColor.sat < 1/10 then { hsvColor with val := 225 }
          else { hsvColor with sat := 2/5 }
        else hsvColor
      some (rgb2hex (hsv2rgb hsvColor))
    else stateColorCss entity

/-- The `hasCardAction` getter: true when no `tap_action` is configured or
any of the configured tap, hold and double-tap descriptors is actionable. -/
def hasCardAction (config : TileConfig) : Bool :=
  config.tap_action.isNone || hasAction config.tap_action ||
    hasAction config.hold_action || hasAction config.double_tap_action

/-- The `hasIconAction` getter: true when no `icon_tap_action` is
configured or the configured descriptor is actionable. -/
def hasIconAction (config : TileConfig) : Bool :=
  config.icon_tap_action.isNone || hasAction config.icon_tap_action

/-- Abstraction of the rendered template of `HuiTileCard.render`, keeping
the claim-relevant observable structure: the empty render (no config or no
state snapshot), the not-found placeholder (icon path, badge icon path,
primary and secondary labels, and no action affordances in the markup), and
the regular tile (whose surfaces carry action affordances as indicated). -/
inductive TileRender
  | blank
  | notFound (iconPath : String) (badgeIconPath : String)
      (primary : Option String) (secondary : String)
  | tile (cardActionable : Bool) (iconActionable : Bool)
      (name : Option String) (active : Bool) (color : Option String)
      (featuresShown : Bool)
deriving DecidableEq

/-- Whether a rendered output exposes any clickable action affordance
(button role, tab index and action handlers on a surface). -/
def rendersActionAffordance : TileRender → Bool
  | TileRender.tile cardActionable iconActionable _ _ _ _ =>
      cardActionable || iconActionable
  | _ => false

/-- `HuiTileCard.render`: nothing without a configuration and a state
snapshot; the not-found placeholder when the configured entity id resolves
to no state object; otherwise the tile with name fallback, activity,
computed color and feature rows. The localization function and the color
utilities are collaborator parameters. -/
def render (localize : String → String)
    (computeCssColor : String → String)
    (stateColorCss : HassEntity → Option String)
    (rgb2hsv : Rgb → Hsv) (hsv2rgb : Hsv → Rgb) (rgb2hex : Rgb → String)
    (config : Option TileConfig) (hass : Option Hass) : TileRender :=
  match config, hass with
  | some cfg, some h =>
    let entityId := cfg.entity
    let stateObj :=
      if entityId.getD "" = "" then none
      else lookupState h (entityId.getD "")
    match stateObj with
    | none =>
      TileRender.notFound mdiHelp mdiExclamationThick entityId
        (localize "ui.card.tile.not_found")
    | some stateObj =>
      let name := cfg.name <|> stateObj.attributes.friendly_name
      let active := stateActive stateObj
      let color := computeStateColor computeCssColor stateColorCss rgb2hsv
        hsv2rgb rgb2hex stateObj cfg.color
      TileRender.tile (hasCardAction cfg) (hasIconAction cfg) name active
        color cfg.features.isSome
  | _, _ => TileRender.blank

end HuiTileCard

/-- A sample card configuration used by concrete instantiations. -/
def sampleCardConfig (payload : String) : CardConfig :=
  { type := "tile"
    visibility := none
    layout_options := none
    error := none
    payload := payload }

/-- C1: with a loaded child element and a new non-null configuration
distinct from the element's current one, the element is rebuilt (fresh
generation, no setConfig call) exactly when the configured type changed or
the host is in preview mode, and otherwise receives the new configuration
in place through setConfig without being recreated. -/
theorem huiCard_config_change_rebuild_or_update (cfg : CardConfig)
    (preview : Bool) (child : HuiCard.LoadedChild)
    (hne : cfg ≠ child.elementConfig) :
    ((cfg.type ≠ child.elementConfig.type ∨ preview = true) →
      HuiCard.updateConfigStep (some cfg) preview child =
        { generation := child.generation + 1
          elementConfig := cfg
          setConfigCalls := child.setConfigCalls }) ∧
    ((cfg.type = child.elementConfig.type ∧ preview = false) →
      HuiCard.updateConfigStep (some cfg) preview child =
        { generation := child.generation
          elementConfig := cfg
          setConfigCalls := child.setConfigCalls ++ [cfg] }) := by
  constructor
  · intro hcase
    have hcond : (cfg.type != child.elementConfig.type || preview) = true := by
      rcases hcase with h | h
      · simp only [Bool.or_eq_true, bne_iff_ne]
        exact Or.inl h
      · simp [h]
    simp [HuiCard.updateConfigStep, if_neg hne, hcond]
  · rintro ⟨hty, hp⟩
    simp [HuiCard.updateConfigStep, if_neg hne, hty, hp]

/-- C1 witness: a same-type non-preview configuration change delivers the
new configuration through a setConfig call and keeps the same element. -/
theorem huiCard_config_change_witness :
    HuiCard.updateConfigStep (some (sampleCardConfig "b")) false
      { generation := 0
        elementConfig := sampleCardConfig "a"
        setConfigCalls := [] } =
      { generation := 0
        elementConfig := sampleCardConfig "b"
        setConfigCalls := [sampleCardConfig "b"] } :=
  (huiCard_config_change_rebuild_or_update (sampleCardConfig "b") false
    { generation := 0
      elementConfig := sampleCardConfig "a"
      setConfigCalls := [] } (by decide)).2 ⟨rfl, rfl⟩

/-- C5: on an external-state change the host pushes the new state into the
child; a successful push keeps the child, a thrown message replaces it with
the error-display configuration carrying that message, and no third outcome
exists, so the failure never propagates past the host boundary. -/
theorem huiCard_hass_error_boundary
    (setChildHass : Hass → Except String Unit) (h : Hass) :
    (setChildHass h = Except.ok () →
      HuiCard.hassChangeStep setChildHass (some h) =
        HuiCard.HassStepResult.statePushed) ∧
    (∀ msg, setChildHass h = Except.error msg →
      HuiCard.hassChangeStep setChildHass (some h) =
        HuiCard.HassStepResult.replacedWithError
          (HuiCard.createErrorCardConfig msg) ∧
      (HuiCard.createErrorCardConfig msg).error = some msg) ∧
    (HuiCard.hassChangeStep setChildHass (some h) =
        HuiCard.HassStepResult.statePushed ∨
      ∃ msg, HuiCard.hassChangeStep setChildHass (some h) =
        HuiCard.HassStepResult.replacedWithError
          (HuiCard.createErrorCardConfig msg)) := by
  refine ⟨?_, ?_, ?_⟩
  · intro hok
    simp [HuiCard.hassChangeStep, hok]
  · intro msg herr
    simp [HuiCard.hassChangeStep, herr, HuiCard.createErrorCardConfig]
  · cases hres : setChildHass h with
    | ok u => exact Or.inl (by simp [HuiCard.hassChangeStep, hres])
    | error msg =>
        exact Or.inr ⟨msg, by simp [HuiCard.hassChangeStep, hres]⟩

/-- C5 witness: a child whose state setter throws is replaced by the
error-display configuration carrying the thrown message. -/
theorem huiCard_hass_error_witness :
    HuiCard.hassChangeStep (fun _ => Except.error "boom")
        (some { states := [] }) =
      HuiCard.HassStepResult.replacedWithError
        (HuiCard.createErrorCardConfig "boom") ∧
    (HuiCard.createErrorCardConfig "boom").error = some "boom" :=
  (huiCard_hass_error_boundary (fun _ => Except.error "boom")
    { states := [] }).2.1 "boom" rfl

/-- C7: disconnecting unsubscribes every active media-query listener and
empties the listener list, and reconfiguring the listeners first
unsubscribes every previously active listener, so every listener left
active was attached for the new visibility conditions. -/
theorem huiCard_media_listeners_unsubscribed
    (attach : List Condition → List Nat)
    (visibility : Option (List Condition)) (s : HuiCard.MediaListenerState) :
    ((HuiCard.disconnectedCallback s).listeners = [] ∧
      ∀ l ∈ s.listeners,
        l ∈ (HuiCard.disconnectedCallback s).unsubscribeLog) ∧
    ((∀ l ∈ s.listeners,
        l ∈ (HuiCard.listenMediaQueries attach visibility s).unsubscribeLog) ∧
      ∀ l ∈ (HuiCard.listenMediaQueries attach visibility s).listeners,
        ∃ conds, visibility = some conds ∧ l ∈ attach conds) := by
  refine ⟨⟨rfl, ?_⟩, ?_, ?_⟩
  · intro l hl
    simp [HuiCard.disconnectedCallback, HuiCard.clearMediaQueries]
    exact Or.inr hl
  · intro l hl
    cases visibility with
    | none =>
        simp [HuiCard.listenMediaQueries, HuiCard.clearMediaQueries]
        exact Or.inr hl
    | some conds =>
        simp [HuiCard.listenMediaQueries, HuiCard.clearMediaQueries]
        exact Or.inr hl
  · intro l hl
    cases visibility with
    | none =>
        simp [HuiCard.listenMediaQueries, HuiCard.clearMediaQueries] at hl
    | some conds =>
        refine ⟨conds, rfl, ?_⟩
        simpa [HuiCard.listenMediaQueries, HuiCard.clearMediaQueries] using hl

/-- C7 witness: a previously active listener is unsubscribed on
reconfiguration to a configuration without visibility conditions. -/
theorem huiCard_media_listeners_witness :
    5 ∈ (HuiCard.listenMediaQueries (fun _ => [9]) none
      { listeners := [5], unsubscribeLog := [] }).unsubscribeLog :=
  (huiCard_media_listeners_unsubscribed (fun _ => [9]) none
    { listeners := [5], unsubscribeLog := [] }).2.1 5 (by decide)

/-- C10: a host without a loaded element reports card size 1, and the tile
card reports one base unit plus one for the vertical layout flag plus one
per configured feature row, hence always at least 1. -/
theorem card_size_base_and_tile
    (computeCardSize : HuiCard.ChildElement → Nat) (cfg : TileConfig) :
    HuiCard.getCardSize computeCardSize none = 1 ∧
    HuiTileCard.getCardSize (some cfg) =
      1 + (if cfg.vertical.getD false then 1 else 0) +
        (cfg.features.getD []).length ∧
    (∀ c : Option TileConfig, 1 ≤ HuiTileCard.getCardSize c) := by
  refine ⟨rfl, by simp [HuiTileCard.getCardSize], ?_⟩
  intro c
  simp only [HuiTileCard.getCardSize]
  split <;> omega

/-- C10 witness: a vertical tile with two feature rows reports size 4. -/
theorem card_size_witness :
    HuiTileCard.getCardSize (some
      { type := "tile", entity := some "light.bed", name := none,
        icon := none, color := none, show_entity_picture := none,
        vertical := some true, hide_state := none,
        features := some ["a", "b"], tap_action := none,
        icon_tap_action := none, hold_action := none,
        double_tap_action := none }) = 4 := by
  rw [(card_size_base_and_tile (fun _ => 1)
    { type := "tile", entity := some "light.bed", name := none,
      icon := none, color := none, show_entity_picture := none,
      vertical := some true, hide_state := none,
      features := some ["a", "b"], tap_action := none,
      icon_tap_action := none, hold_action := none,
      double_tap_action := none }).2.1]
  decide

/-- C2: with a loaded element and a present state snapshot, the computed
visibility is false whenever the element reports itself hidden, and
otherwise true exactly when visibility is forced, or the host is in preview
mode, or no visibility conditions are configured, or the configured
conditions evaluate true against the current state. -/
theorem huiCard_visibility_algorithm (check : List Condition → Hass → Bool)
    (h : Hass) (elementHidden preview : Bool)
    (visibility : Option (List Condition)) (forceVisible : Option Bool) :
    (elementHidden = true →
      HuiCard.updateVisibility check true (some h) elementHidden preview
        visibility forceVisible = some false) ∧
    (elementHidden = false →
      (HuiCard.updateVisibility check true (some h) elementHidden preview
          visibility forceVisible = some true ↔
        (forceVisible = some true ∨ preview = true ∨ visibility = none ∨
          ∃ conds, visibility = some conds ∧ check conds h = true))) := by
  constructor
  · intro hh
    simp [HuiCard.updateVisibility, hh]
  · intro hh
    subst hh
    rcases visibility with _ | conds
    · simp [HuiCard.updateVisibility]
    · rcases forceVisible with _ | fv
      · simp [HuiCard.updateVisibility]
      · cases fv <;> simp [HuiCard.updateVisibility]

/-- C2 witness: in preview mode with no conditions configured, a
non-hidden element with a state snapshot computes visible. -/
theorem huiCard_visibility_witness :
    HuiCard.updateVisibility (fun _ _ => false) true (some { states := [] })
      false true none none = some true :=
  ((huiCard_visibility_algorithm (fun _ _ => false) { states := [] } false
    true none none).2 rfl).mpr (Or.inr (Or.inl rfl))

/-- Helper: one `_setElementVisibility` step leaves the host's hidden
attribute at the negation of the delivered value, leaves the child attached
exactly when visible, and fires the event exactly when the hidden attribute
disagreed with the new value. -/
lemma setElementVisibility_step (v : Bool) (s : HuiCard.VisState) :
    (HuiCard.setElementVisibility true v s).1 =
      { hostHidden := !v, childAttached := v } ∧
    (HuiCard.setElementVisibility true v s).2 = (s.hostHidden != (!v)) := by
  rcases s with ⟨hh, ca⟩
  cases v <;> cases hh <;> cases ca <;>
    simp [HuiCard.setElementVisibility]

/-- Helper: over a sequence of evaluations the number of fired
`card-visibility-changed` events equals the number of actual transitions of
the delivered visibility value. -/
lemma runVisibility_count (vs : List Bool) (s : HuiCard.VisState) :
    (HuiCard.runVisibility true s vs).2 =
      HuiCard.countChanges (!s.hostHidden) vs := by
  induction vs generalizing s with
  | nil => rfl
  | cons v vs ih =>
    have hstep := setElementVisibility_step v s
    simp only [HuiCard.runVisibility, HuiCard.countChanges, hstep.1,
      hstep.2, ih]
    cases v <;> cases s.hostHidden <;> simp

/-- C3: over every sequence of visibility evaluations the
`card-visibility-changed` event fires exactly once per actual transition of
the computed visibility value and never on a same-value re-evaluation, and
each single evaluation leaves the child element attached exactly when
visible and the host hidden exactly when not. -/
theorem huiCard_visibility_changed_once_per_transition
    (s : HuiCard.VisState) (vs : List Bool) :
    (HuiCard.runVisibility true s vs).2 =
      HuiCard.countChanges (!s.hostHidden) vs ∧
    ∀ v : Bool,
      ((HuiCard.setElementVisibility true v s).2 = true ↔
        (!s.hostHidden) ≠ v) ∧
      (HuiCard.setElementVisibility true v s).1.childAttached = v ∧
      (HuiCard.setElementVisibility true v s).1.hostHidden = !v := by
  refine ⟨runVisibility_count vs s, ?_⟩
  intro v
  have hstep := setElementVisibility_step v s
  refine ⟨?_, by rw [hstep.1], by rw [hstep.1]⟩
  rw [hstep.2]
  cases v <;> cases s.hostHidden <;> simp

/-- C3 witness: the sequence hidden, hidden, visible starting from a
visible host fires exactly two events, and the re-evaluation with the same
value fires none. -/
theorem huiCard_visibility_changed_witness :
    (HuiCard.runVisibility true
      { hostHidden := false, childAttached := true }
      [false, false, true]).2 = 2 := by
  rw [(huiCard_visibility_changed_once_per_transition
    { hostHidden := false, childAttached := true } [false, false, true]).1]
  decide

/-- A sample tile configuration with only the entity set, used by concrete
instantiations. -/
def sampleTileConfig : TileConfig :=
  { type := "tile"
    entity := some "light.bed"
    name := none
    icon := none
    color := none
    show_entity_picture := none
    vertical := none
    hide_state := none
    features := none
    tap_action := none
    icon_tap_action := none
    hold_action := none
    double_tap_action := none }

/-- C4: setConfig throws exactly when the configuration carries no entity
id; on success the stored configuration is the user configuration merged
over the defaults, with primary tap defaulting to more-info and the icon
tap defaulting to toggle exactly for toggleable domains and
button/input_button/scene, and any explicitly configured action taking
precedence. -/
theorem tile_setConfig_merges_defaults (domainsToggle : List String)
    (config : TileConfig) :
    ((∃ msg, HuiTileCard.setConfig domainsToggle config =
        Except.error msg) ↔ config.entity.getD "" = "") ∧
    (∀ stored,
      HuiTileCard.setConfig domainsToggle config = Except.ok stored →
      stored.tap_action =
        some (config.tap_action.getD { action := "more-info" }) ∧
      stored.icon_tap_action = some (config.icon_tap_action.getD
        { action := HuiTileCard.getEntityDefaultTileIconAction domainsToggle
            (config.entity.getD "") }) ∧
      stored.entity = config.entity ∧ stored.features = config.features ∧
      stored.color = config.color ∧ stored.vertical = config.vertical) ∧
    (∀ entityId : String,
      HuiTileCard.getEntityDefaultTileIconAction domainsToggle entityId =
          "toggle" ↔
        (computeDomain entityId ∈ domainsToggle ∨
          computeDomain entityId ∈ ["button", "input_button", "scene"])) := by
  refine ⟨?_, ?_, ?_⟩
  · by_cases hc : config.entity.getD "" = ""
    · simp only [hc, iff_true]
      exact ⟨"Specify an entity", by simp [HuiTileCard.setConfig, hc]⟩
    · simp only [hc, iff_false]
      rintro ⟨msg, hmsg⟩
      simp [HuiTileCard.setConfig, hc] at hmsg
  · intro stored hst
    by_cases hc : config.entity.getD "" = ""
    · simp [HuiTileCard.setConfig, hc] at hst
    · simp only [HuiTileCard.setConfig, hc, if_false, Except.ok.injEq] at hst
      subst hst
      exact ⟨rfl, rfl, rfl, rfl, rfl, rfl⟩
  · intro entityId
    have hmem : (domainsToggle.contains (computeDomain entityId) ||
        ["button", "input_button", "scene"].contains
          (computeDomain entityId)) = true ↔
        (computeDomain entityId ∈ domainsToggle ∨
          computeDomain entityId ∈ ["button", "input_button", "scene"]) := by
      simp only [Bool.or_eq_true]
      exact or_congr List.elem_iff List.elem_iff
    rw [← hmem]
    simp only [HuiTileCard.getEntityDefaultTileIconAction]
    cases hb : (domainsToggle.contains (computeDomain entityId) ||
        ["button", "input_button", "scene"].contains
          (computeDomain entityId)) with
    | false => decide
    | true => decide

/-- C4 witness: a toggleable-domain entity with no explicit actions gets
the more-info primary default and the toggle icon default. -/
theorem tile_setConfig_witness :
    HuiTileCard.setConfig ["light"] sampleTileConfig =
      Except.ok { sampleTileConfig with
        tap_action := some { action := "more-info" }
        icon_tap_action := some { action := "toggle" } } ∧
    ({ sampleTileConfig with
        tap_action := some { action := "more-info" }
        icon_tap_action := some { action := "toggle" } } :
          TileConfig).tap_action =
      some (sampleTileConfig.tap_action.getD { action := "more-info" }) ∧
    HuiTileCard.getEntityDefaultTileIconAction ["light"] "light.bed" =
      "toggle" := by
  refine ⟨rfl, ?_, ?_⟩
  · exact ((tile_setConfig_merges_defaults ["light"] sampleTileConfig).2.1
      { sampleTileConfig with
        tap_action := some { action := "more-info" }
        icon_tap_action := some { action := "toggle" } } rfl).1
  · exact ((tile_setConfig_merges_defaults ["light"]
      sampleTileConfig).2.2 "light.bed").mpr (Or.inl (by decide))

/-- A sample inactive light entity carrying a saturated rgb color. -/
def offLight : HassEntity :=
  { entity_id := "light.bed"
    state := "off"
    attributes :=
      { friendly_name := none
        rgb_color := some (255, 0, 0)
        entity_picture := none } }

/-- A sample active light entity carrying a saturated rgb color. -/
def onLight : HassEntity :=
  { entity_id := "light.bed"
    state := "on"
    attributes :=
      { friendly_name := none
        rgb_color := some (255, 0, 0)
        entity_picture := none } }

/-- A sample CSS-color resolver instantiating the collaborator
parameter. -/
def sampleCssColor (c : String) : String := String.append "css-" c

/-- A sample rgb-to-hsv conversion instantiating the collaborator
parameter. -/
def sampleRgb2hsv (_ : Rgb) : Hsv := { hue := 0, sat := 1, val := 1 }

/-- A sample hsv-to-rgb conversion instantiating the collaborator
parameter. -/
def sampleHsv2rgb (_ : Hsv) : Rgb := (255, 0, 0)

/-- A sample rgb-to-hex conversion instantiating the collaborator
parameter. -/
def sampleRgb2hex (_ : Rgb) : String := "ff0000"

/-- A sample state-color resolver instantiating the collaborator
parameter. -/
def sampleStateColorCss (_ : HassEntity) : Option String := none

/-- Sample layout options standing for a configuration's layout_options. -/
def sampleConfigLayoutOptions : LayoutOptions :=
  { grid_columns := none
    grid_rows := some 3
    grid_max_columns := none
    grid_min_columns := none
    grid_min_rows := none
    grid_max_rows := none }

/-- Sample layout options standing for a child element's report. -/
def sampleCardLayoutOptions : LayoutOptions :=
  { grid_columns := some 2
    grid_rows := some 1
    grid_max_columns := none
    grid_min_columns := some 2
    grid_min_rows := some 1
    grid_max_rows := none }

/-- A sample card configuration carrying layout options. -/
def sampleLayoutCardConfig : CardConfig :=
  { type := "tile"
    visibility := none
    layout_options := some sampleConfigLayoutOptions
    error := none
    payload := "" }

/-- A sample child element reporting layout options. -/
def sampleChildElement : HuiCard.ChildElement :=
  { reportedLayoutOptions := some sampleCardLayoutOptions }

/-- C9: with a loaded element, every layout-options key present in the
configuration takes precedence over the same key reported by the element,
and a key absent from the configuration falls back to the element's
reported value. -/
theorem huiCard_layout_options_config_precedence (config : CardConfig)
    (el : HuiCard.ChildElement) (configOpts cardOpts : LayoutOptions)
    (hc : config.layout_options = some configOpts)
    (he : el.reportedLayoutOptions = some cardOpts) :
    ((∀ v, configOpts.grid_columns = some v →
        (HuiCard.getLayoutOptions (some config) (some el)).grid_columns =
          some v) ∧
      (configOpts.grid_columns = none →
        (HuiCard.getLayoutOptions (some config) (some el)).grid_columns =
          cardOpts.grid_columns)) ∧
    ((∀ v, configOpts.grid_rows = some v →
        (HuiCard.getLayoutOptions (some config) (some el)).grid_rows =
          some v) ∧
      (configOpts.grid_rows = none →
        (HuiCard.getLayoutOptions (some config) (some el)).grid_rows =
          cardOpts.grid_rows)) ∧
    ((∀ v, configOpts.grid_max_columns = some v →
        (HuiCard.getLayoutOptions (some config) (some el)).grid_max_columns =
          some v) ∧
      (configOpts.grid_max_columns = none →
        (HuiCard.getLayoutOptions (some config) (some el)).grid_max_columns =
          cardOpts.grid_max_columns)) ∧
    ((∀ v, configOpts.grid_min_columns = some v →
        (HuiCard.getLayoutOptions (some config) (some el)).grid_min_columns =
          some v) ∧
      (configOpts.grid_min_columns = none →
        (HuiCard.getLayoutOptions (some config) (some el)).grid_min_columns =
          cardOpts.grid_min_columns)) ∧
    ((∀ v, configOpts.grid_min_rows = some v →
        (HuiCard.getLayoutOptions (some config) (some el)).grid_min_rows =
          some v) ∧
      (configOpts.grid_min_rows = none →
        (HuiCard.getLayoutOptions (some config) (some el)).grid_min_rows =
          cardOpts.grid_min_rows)) ∧
    ((∀ v, configOpts.grid_max_rows = some v →
        (HuiCard.getLayoutOptions (some config) (some el)).grid_max_rows =
          some v) ∧
      (configOpts.grid_max_rows = none →
        (HuiCard.getLayoutOptions (some config) (some el)).grid_max_rows =
          cardOpts.grid_max_rows)) := by
  have hres : HuiCard.getLayoutOptions (some config) (some el) =
      HuiCard.mergeLayoutOptions cardOpts configOpts := by
    simp [HuiCard.getLayoutOptions, hc, he]
  rw [hres]
  refine ⟨⟨?_, ?_⟩, ⟨?_, ?_⟩, ⟨?_, ?_⟩, ⟨?_, ?_⟩, ⟨?_, ?_⟩, ⟨?_, ?_⟩⟩ <;>
    intros <;>
    simp [HuiCard.mergeLayoutOptions, *]

/-- C9 witness: a configured grid_rows overrides the element's reported
grid_rows, while the unconfigured grid_columns falls back to the element's
value. -/
theorem huiCard_layout_options_witness :
    (HuiCard.getLayoutOptions (some sampleLayoutCardConfig)
      (some sampleChildElement)).grid_rows = some 3 ∧
    (HuiCard.getLayoutOptions (some sampleLayoutCardConfig)
      (some sampleChildElement)).grid_columns = some 2 :=
  ⟨(huiCard_layout_options_config_precedence sampleLayoutCardConfig
      sampleChildElement sampleConfigLayoutOptions sampleCardLayoutOptions
      rfl rfl).2.1.1 3 rfl,
    (huiCard_layout_options_config_precedence sampleLayoutCardConfig
      sampleChildElement sampleConfigLayoutOptions sampleCardLayoutOptions
      rfl rfl).1.2 rfl⟩

/-- C8: a tile configuration whose entity id has no entry in the state
snapshot renders the not-found placeholder, with the generic help icon, the
warning badge, the entity id as primary label and the localized not-found
label, and the rendered output exposes no action affordance; rendering is
total, so this is a normal case, not an error. -/
theorem tile_render_not_found (localize : String → String)
    (computeCssColor : String → String)
    (stateColorCss : HassEntity → Option String)
    (rgb2hsv : Rgb → Hsv) (hsv2rgb : Hsv → Rgb) (rgb2hex : Rgb → String)
    (config : TileConfig) (h : Hass) (entityId : String)
    (hent : config.entity = some entityId) (hne : entityId ≠ "")
    (hmiss : lookupState h entityId = none) :
    HuiTileCard.render localize computeCssColor stateColorCss rgb2hsv
        hsv2rgb rgb2hex (some config) (some h) =
      HuiTileCard.TileRender.notFound mdiHelp mdiExclamationThick
        (some entityId) (localize "ui.card.tile.not_found") ∧
    HuiTileCard.rendersActionAffordance
      (HuiTileCard.render localize computeCssColor stateColorCss rgb2hsv
        hsv2rgb rgb2hex (some config) (some h)) = false := by
  have hrender : HuiTileCard.render localize computeCssColor stateColorCss
      rgb2hsv hsv2rgb rgb2hex (some config) (some h) =
      HuiTileCard.TileRender.notFound mdiHelp mdiExclamationThick
        (some entityId) (localize "ui.card.tile.not_found") := by
    simp [HuiTileCard.render, hent, hne, hmiss]
  refine ⟨hrender, ?_⟩
  rw [hrender]
  rfl

/-- C8 witness: a tile configured for an entity absent from an empty state
snapshot renders the not-found placeholder without action affordances. -/
theorem tile_render_not_found_witness :
    HuiTileCard.render (fun s => s) sampleCssColor sampleStateColorCss
        sampleRgb2hsv sampleHsv2rgb sampleRgb2hex (some sampleTileConfig)
        (some { states := [] }) =
      HuiTileCard.TileRender.notFound mdiHelp mdiExclamationThick
        (some "light.bed") "ui.card.tile.not_found" ∧
    HuiTileCard.rendersActionAffordance
      (HuiTileCard.render (fun s => s) sampleCssColor sampleStateColorCss
        sampleRgb2hsv sampleHsv2rgb sampleRgb2hex (some sampleTileConfig)
        (some { states := [] })) = false :=
  tile_render_not_found (fun s => s) sampleCssColor sampleStateColorCss
    sampleRgb2hsv sampleHsv2rgb sampleRgb2hex sampleTileConfig
    { states := [] } "light.bed" rfl (by decide) rfl

/-- C6 counterexample: for an inactive light carrying a saturated
rgb_color and a configured override color, the computed tile color is no
color at all, not the CSS color derived from the override, so the claim's
unconditional equation fails. -/
theorem tile_override_color_counterexample :
    HuiTileCard.computeStateColor sampleCssColor sampleStateColorCss
        sampleRgb2hsv sampleHsv2rgb sampleRgb2hex offLight (some "red") =
      none ∧
    some (sampleCssColor "red") ≠ (none : Option String) :=
  ⟨rfl, by decide⟩

/-- C6 (amended): with a configured override color, an active entity's
computed tile color is exactly the CSS color derived from the override, an
inactive entity's is no color, and in either case the result is
independent of the light's rgb_color attribute, which is therefore never
used when an override is configured. -/
theorem tile_override_color_precedence (computeCssColor : String → String)
    (stateColorCss : HassEntity → Option String)
    (rgb2hsv : Rgb → Hsv) (hsv2rgb : Hsv → Rgb) (rgb2hex : Rgb → String)
    (entity : HassEntity) (c : String) :
    (stateActive entity = true →
      HuiTileCard.computeStateColor computeCssColor stateColorCss rgb2hsv
        hsv2rgb rgb2hex entity (some c) = some (computeCssColor c)) ∧
    (stateActive entity = false →
      HuiTileCard.computeStateColor computeCssColor stateColorCss rgb2hsv
        hsv2rgb rgb2hex entity (some c) = none) ∧
    (∀ rgb : Option Rgb,
      HuiTileCard.computeStateColor computeCssColor stateColorCss rgb2hsv
          hsv2rgb rgb2hex
          { entity with attributes :=
            { entity.attributes with rgb_color := rgb } } (some c) =
        HuiTileCard.computeStateColor computeCssColor stateColorCss rgb2hsv
          hsv2rgb rgb2hex entity (some c)) := by
  refine ⟨?_, ?_, ?_⟩
  · intro ha
    simp [HuiTileCard.computeStateColor, ha]
  · intro ha
    simp [HuiTileCard.computeStateColor, ha]
  · intro rgb
    have hsa : stateActive { entity with attributes :=
        { entity.attributes with rgb_color := rgb } } =
        stateActive entity := rfl
    simp only [HuiTileCard.computeStateColor, hsa]

/-- C6 witness: an active light with an override color computes exactly
the CSS color derived from the override. -/
theorem tile_override_color_witness :
    stateActive onLight = true ∧
    HuiTileCard.computeStateColor sampleCssColor sampleStateColorCss
        sampleRgb2hsv sampleHsv2rgb sampleRgb2hex onLight (some "red") =
      some (sampleCssColor "red") :=
  ⟨rfl, (tile_override_color_precedence sampleCssColor sampleStateColorCss
    sampleRgb2hsv sampleHsv2rgb sampleRgb2hex onLight "red").1 rfl⟩

end HuiSpec
